import Mathlib

/-!
# Verification of the apyefa command/request and response-parsing core

Shallow embedding of the `apyefa` transit-API client (a Python library).
Pure fragments of the source become Lean functions; Python exceptions become
`Except`/outcome values; Python dicts that matter for the semantics become
insertion-ordered association lists.  Each definition is annotated with the
source file and lines it embeds.  Parts of the repository that the claims
need but whose source is not present (the `Command` base class in
`apyefa/commands/command.py`, `apyefa/data_classes.py`,
`apyefa/commands/command_add_info.py`) are modelled from the specification
and marked `Modelled from the spec:` in their doc comments.
-/

/-- A Python scalar value as used for command parameters
(string, integer or boolean). -/
inductive PyVal where
  | s (v : String)
  | i (v : Int)
  | b (v : Bool)
deriving DecidableEq, Repr

/-- Python `str(value)` for the scalar parameter values
(`str(True) = "True"`, `str(False) = "False"`). -/
def PyVal.render : PyVal → String
  | .s v => v
  | .i v => toString v
  | .b true => "True"
  | .b false => "False"

/-- A raw location item of a stop-finder / serving-lines JSON response, as read
by `ServingLinesRequest.parse` (src/apyefa/requests/req_serving_lines.py,
lines 27-46).  Absent JSON keys are `none`; the nested `properties` dict is
kept as an ordered key-value list so Python dict truthiness (non-empty) and
`dict.get` are representable. -/
structure RawLocation where
  id : Option String
  isGlobalId : Option Bool
  name : Option String
  disassembledName : Option String
  coord : Option (List Int)
  locType : Option String
  productClasses : Option (List Nat)
  matchQuality : Option Int
  properties : Option (List (String × String))
deriving DecidableEq, Repr

/-- The identifier-resolution step of `ServingLinesRequest.parse`
(req_serving_lines.py lines 29-33):

    id = location.get("id", "")
    if not location.get("isGlobalId", False):
        if location.get("properties"):
            id = location.get("properties").get("stopId")

`location.get("properties")` is truthy only for a present non-empty dict, and
`properties.get("stopId")` may be `None`, so the resolved id is an `Option`. -/
def resolveStopId (loc : RawLocation) : Option String :=
  if loc.isGlobalId.getD false then
    some (loc.id.getD "")
  else
    match loc.properties with
    | some ps =>
        if ps.isEmpty then some (loc.id.getD "") else ps.lookup "stopId"
    | none => some (loc.id.getD "")

/-- The per-item record built inside the loop of `ServingLinesRequest.parse`
(req_serving_lines.py lines 35-46).  `data_classes.py` is absent from src/, so
the `StopType` / `TransportType` wire codes are carried as their raw values
(no claim depends on the enum coercion). -/
structure StopRec where
  id : Option String
  name : String
  disassembled_name : String
  coord : List Int
  stop_type : String
  transports : List Nat
  match_quality : Int
deriving DecidableEq, Repr

/-- One loop iteration of `ServingLinesRequest.parse`
(req_serving_lines.py lines 28-48): defensive `get` with defaults, identifier
resolution via `resolveStopId`. -/
def mkStopRec (loc : RawLocation) : StopRec :=
  { id := resolveStopId loc
    name := loc.name.getD ""
    disassembled_name := loc.disassembledName.getD ""
    coord := loc.coord.getD []
    stop_type := loc.locType.getD ""
    transports := loc.productClasses.getD []
    match_quality := loc.matchQuality.getD 0 }

/-- Descending-by-match-quality ordering used by
`sorted(stops, key=lambda x: x["match_quality"], reverse=True)`
(req_serving_lines.py line 50). -/
def mqDescRel (a b : StopRec) : Prop := b.match_quality ≤ a.match_quality

instance : DecidableRel mqDescRel := fun a b => Int.decLe _ _

instance : IsTotal StopRec mqDescRel := ⟨fun a b => Int.le_total _ _⟩

instance : IsTrans StopRec mqDescRel := ⟨fun _ _ _ hab hbc => le_trans hbc hab⟩

/-- The sort of req_serving_lines.py line 50.  Python's `sorted` with
`reverse=True` is a stable descending sort; `List.insertionSort` is stable,
so with `mqDescRel` it computes the same list. -/
def sortStops (stops : List StopRec) : List StopRec :=
  List.insertionSort mqDescRel stops

/-- The final `Stop` value constructed at req_serving_lines.py lines 52-61:
the intermediate record minus its `match_quality`. -/
structure Stop where
  id : Option String
  name : String
  disassembled_name : String
  coord : List Int
  stop_type : String
  transports : List Nat
deriving DecidableEq, Repr

/-- Projection from the intermediate record to the returned `Stop`
(req_serving_lines.py lines 52-61). -/
def StopRec.toStop (r : StopRec) : Stop :=
  { id := r.id
    name := r.name
    disassembled_name := r.disassembled_name
    coord := r.coord
    stop_type := r.stop_type
    transports := r.transports }

/-- `ServingLinesRequest.parse` (req_serving_lines.py lines 18-61) applied to
the `locations` list extracted from the response: map each item, sort
descending by match quality, project to `Stop`. -/
def servingLinesParse (locations : List RawLocation) : List Stop :=
  (sortStops (locations.map mkStopRec)).map StopRec.toStop

/-- The exception taxonomy of `apyefa/exceptions.py` (declared there; the
constructors used below are the ones raised in the src/ files:
`ValueError` and `NotImplementedError` are Python builtins, the `Efa*`
kinds appear in client.py and command_trip.py). -/
inductive EfaError where
  | valueError (msg : String)
  | formatNotSupported (msg : String)
  | connectionError (msg : String) (status : Nat)
  | parameterError (msg : String)
  | notImplementedError
deriving DecidableEq, Repr

/-- An HTTP response as seen by `EfaClient._run_query`: a status code and the
body text. -/
structure HttpResponse where
  status : Nat
  text : String
deriving DecidableEq, Repr

/-- The single outbound GET issued by `EfaClient._run_query`
(client.py lines 505-507): `self._client_session.get(query, ssl=False,
timeout=QUERY_TIMEOUT)`. -/
structure HttpCall where
  url : String
  ssl : Bool
  timeoutSeconds : Nat
deriving DecidableEq, Repr

/-- `QUERY_TIMEOUT` (client.py line 33). -/
def QUERY_TIMEOUT : Nat := 30

/-- `EfaClient._run_query` (client.py lines 502-520): issues exactly one GET
(the returned `HttpCall`, with the literal `ssl=False` and the 30-second
timeout) and classifies the outcome of the given response: status 200 returns
the body text unchanged, any other status raises `EfaConnectionError`
carrying the status code; there is no retry (one call per invocation, by
construction of this function). -/
def runQuery (query : String) (response : HttpResponse) :
    HttpCall × Except EfaError String :=
  ({ url := query, ssl := false, timeoutSeconds := QUERY_TIMEOUT },
   if response.status = 200 then
     .ok response.text
   else
     .error (.connectionError "Failed to fetch data from endpoint. Returned status: "
       response.status))

/-- The state stored by a successfully constructed `EfaClient`
(client.py lines 61-63).  It has exactly the fields `_debug`, `_format`,
`_base_url`: in particular no TLS/insecure-transport configuration field
exists. -/
structure ClientState where
  debug : Bool
  format : String
  base_url : String
deriving DecidableEq, Repr

/-- Python truthiness of the `url` argument (`if not url:`): `None` and the
empty string are falsy. -/
def pyTruthyStr : Option String → Bool
  | none => false
  | some s => !(s == "")

/-- Python `url.endswith("/")` for the one-character suffix: the last
character of the string is `'/'`. -/
def pyEndsWithSlash (s : String) : Bool := s.data.getLast? == some '/'

/-- The base-URL normalization of client.py line 63:
`url if url.endswith("/") else f"{url}/"`. -/
def normalizeBaseUrl (url : String) : String :=
  if pyEndsWithSlash url then url else url ++ "/"

/-- Result of running `EfaClient.__init__`: the constructed state or the
raised error, together with the number of transport invocations performed
during construction.  The body of `__init__` (client.py lines 44-63) contains
no call to `_run_query` or any other I/O, so the embedding performs zero
transport calls on every path. -/
structure InitResult where
  outcome : Except EfaError ClientState
  transportCalls : Nat
deriving Repr

/-- `EfaClient.__init__` (client.py lines 44-63): reject a missing/empty url
with `ValueError`, reject any format other than `"rapidJSON"` with
`EfaFormatNotSupported`, otherwise store debug, format and the normalized
base url. -/
def clientInit (url : Option String) (debug : Bool) (format : String) :
    InitResult :=
  if !(pyTruthyStr url) then
    { outcome := .error (.valueError "No EFA endpoint url provided")
      transportCalls := 0 }
  else if format ≠ "rapidJSON" then
    { outcome := .error (.formatNotSupported
        ("Format " ++ format ++ " is not supported"))
      transportCalls := 0 }
  else
    { outcome := .ok
        { debug := debug
          format := format
          base_url := normalizeBaseUrl (url.getD "") }
      transportCalls := 0 }

/-- Python `xs[:k]` for an integer bound `k`: the first `k` elements when
`k ≥ 0`, everything but the last `|k|` elements when `k < 0`. -/
def pySliceTo {α : Type} (xs : List α) (k : Int) : List α :=
  if 0 ≤ k then xs.take k.toNat else xs.take ((xs.length : Int) + k).toNat

/-- The post-processing of `EfaClient.locations_by_name` (client.py line 124):
`command.parse(response)[:limit]`, default limit 30. -/
def locationsByNameLimit {α : Type} (parsed : List α) (limit : Int) : List α :=
  pySliceTo parsed limit

/-- The post-processing of `EfaClient.location_by_coord` (client.py line 164):
`command.parse(response)[:limit]`, default limit 10. -/
def locationByCoordLimit {α : Type} (parsed : List α) (limit : Int) : List α :=
  pySliceTo parsed limit

/-- The post-processing of `EfaClient.departures_by_location`
(client.py line 340): `command.parse(response)[:limit]`, default limit 40. -/
def departuresByLocationLimit {α : Type} (parsed : List α) (limit : Int) :
    List α :=
  pySliceTo parsed limit

/-- A Python call outcome: a returned value or a raised exception. -/
inductive PyOutcome (α : Type) where
  | returns (v : α)
  | raises (e : EfaError)
deriving DecidableEq, Repr

/-- `EfaClient.trip` (client.py lines 282-283): the body is
`raise NotImplementedError`, for every call. -/
def clientTrip : PyOutcome Unit := .raises .notImplementedError

/-- `EfaClient.additional_info_stop` (client.py lines 499-500): the body is
`pass`, so every call returns `None` (modelled as `()`); nothing is raised. -/
def clientAdditionalInfoStop : PyOutcome Unit := .returns ()

/-- `CommandTrip.parse` (command_trip.py lines 16-17): raises
`NotImplementedError` for every input. -/
def commandTripParse (_data : String) : PyOutcome Unit :=
  .raises .notImplementedError

/-- Python-dict access for an insertion-ordered association list: the value
of the first (and, for dict-built lists, only) entry with the given key. -/
def alistGet {β : Type} (k : String) : List (String × β) → Option β
  | [] => none
  | p :: ps => if p.1 = k then some p.2 else alistGet k ps

/-- Python-dict update `d[k] = v` on an insertion-ordered association list:
an existing key keeps its position and gets the new value, a new key is
appended at the end. -/
def dictSet {β : Type} (params : List (String × β)) (k : String) (v : β) :
    List (String × β) :=
  if params.any (fun p => decide (p.1 = k)) then
    params.map (fun p => if p.1 = k then (k, v) else p)
  else
    params ++ [(k, v)]

/-- A declared value domain of a parameter schema, as written in the
`voluptuous` schemas of the source. -/
inductive ParamDomain where
  | strEnum (allowed : List String)
  | zeroOne
  | anyStr
  | intRange (lo hi : Int)
deriving DecidableEq, Repr

/-- Whether a value lies in a declared domain.  `strEnum` is
`Any(literal, ...)`, `zeroOne` is `Any("0", "1", 0, 1)` (a Python bool
compares equal to 0/1, so both bools pass), `anyStr` is the `str` validator,
`intRange lo hi` is `Range(min=lo, max=hi)`. -/
def domainOk : ParamDomain → PyVal → Bool
  | .strEnum allowed, .s v => allowed.contains v
  | .strEnum _, _ => false
  | .zeroOne, .s v => decide (v = "0" ∨ v = "1")
  | .zeroOne, .i v => decide (v = 0 ∨ v = 1)
  | .zeroOne, .b _ => true
  | .anyStr, .s _ => true
  | .anyStr, _ => false
  | .intRange lo hi, .i v => decide (lo ≤ v ∧ v ≤ hi)
  | .intRange _ _, _ => false

/-- Modelled from the spec: `apyefa/data_classes.py` is absent from src/.
`LineRequestType` is a closed bit-flag enumeration whose members' integer
values are summed to form filter parameters; representative distinct
bit-flag values stand in for the unknown member list.  Only their sum enters
the schema bound below, and no theorem depends on the particular values. -/
def lineRequestTypeValues : List Int := [1, 2, 4, 8, 16]

/-- `sum([x.value for x in LineRequestType])`, the declared maximum of the
`lineReqType` parameter (command_serving_lines.py lines 43-45). -/
def lineReqTypeMax : Int := lineRequestTypeValues.sum

/-- Modelled from the spec: `apyefa/data_classes.py` is absent from src/.
`CoordFormat` is a closed enumeration of coordinate-format wire strings; the
`WGS84` member's wire value `"WGS84[dd.ddddd]"` is the one fixed by the
source's own tests, and the only one any claim touches. -/
def coordFormatValues : List String := ["WGS84[dd.ddddd]"]

/-- The parameter schema of `CommandServingLines._get_params_schema`
(command_serving_lines.py lines 29-54), key by key in source order. -/
def servingLinesParamsSchema : List (String × ParamDomain) :=
  [("outputFormat", .strEnum ["rapidJSON"]),
   ("coordOutputFormat", .strEnum coordFormatValues),
   ("locationServerActive", .zeroOne),
   ("mode", .strEnum ["odv", "line"]),
   ("type_sl", .strEnum ["stopID"]),
   ("name_sl", .anyStr),
   ("lineName", .anyStr),
   ("lineReqType", .intRange 0 lineReqTypeMax),
   ("mergeDir", .zeroOne),
   ("lsShowTrainsExplicit", .zeroOne),
   ("line", .anyStr)]

/-- Modelled from the spec: the `Command` base class
(`apyefa/commands/command.py`) carrying `add_param` is absent from src/.
Per spec §4.1, insertion validates synchronously against the operation's
declarative schema — an undeclared key or an out-of-domain value fails with
a `ParameterError` naming the offending key, and a valid insertion stores
the value unchanged; no I/O is involved (the function is pure). -/
def addParam (schema : List (String × ParamDomain))
    (params : List (String × PyVal)) (key : String) (value : PyVal) :
    Except EfaError (List (String × PyVal)) :=
  match alistGet key schema with
  | none => .error (.parameterError key)
  | some dom =>
      if domainOk dom value then .ok (dictSet params key value)
      else .error (.parameterError key)

/-- The full argument list of `EfaClient.additional_info_line`
(client.py lines 462-482), field by field in source order.  The missing
`InfoType` / `InfoPriority` enumerations (data_classes.py is absent from
src/) are carried as integer codes; `filter_date : date | str | None` is
carried as `Option String` (a `date` value renders as its non-empty ISO
string, so Python truthiness of the argument is `≠ ""` on the `some` case). -/
structure AddInfoArgs where
  incl_history : Bool
  only_valid : Bool
  filter_date : Option String
  info_types : List Int
  prio : List Int
  mot_types : List String
  operatos : List String
  lines : List String
  networks : List String
  pn_lines : List String
  pn_line_directions : List String
  line : Option String
  passed_stops : Int
  id_stops : List String
  info_id : Option String
  show_line_list : Bool
  show_stop_list : Bool
  show_place_list : Bool
deriving DecidableEq, Repr

/-- The parameter set built by `EfaClient.additional_info_line`
(client.py lines 485-493).  Modelled from the spec for the accumulation
itself: the `Command` base (absent from src/) starts every command with the
`outputFormat` default and stores each declared-valid `add_param` insertion
in order.  The insertions here are the façade's own:
`coordOutputFormat` always, `filterPublished="1"` iff `not incl_history`,
`filterValid="1"` iff `only_valid`, `filterDateValid=filter_date` iff
`filter_date` is truthy. -/
def additionalInfoLineParams (a : AddInfoArgs) : List (String × PyVal) :=
  let p0 := [("outputFormat", PyVal.s "rapidJSON")]
  let p1 := dictSet p0 "coordOutputFormat" (.s "WGS84[dd.ddddd]")
  let p2 := if !a.incl_history then dictSet p1 "filterPublished" (.s "1")
            else p1
  let p3 := if a.only_valid then dictSet p2 "filterValid" (.s "1") else p2
  match a.filter_date with
  | none => p3
  | some d => if d = "" then p3 else dictSet p3 "filterDateValid" (.s d)

/-- Modelled from the spec (§4.2): `Command.__str__` (commands/command.py,
absent from src/) serializes as
`operation_name + "?" + "&".join(key=value)`; the source's own tests fix
this shape (`"XML_SERVINGLINES_REQUEST?outputFormat=rapidJSON"`). -/
def serializeCommand (name : String) (params : List (String × PyVal)) :
    String :=
  name ++ "?" ++
    String.intercalate "&" (params.map (fun p => p.1 ++ "=" ++ p.2.render))

/-- The serialized request built by `additional_info_line`; the operation
name of `CommandAdditionalInfo` (commands/command_add_info.py is absent from
src/) is the EFA additional-info endpoint name.  No theorem depends on the
particular name string. -/
def additionalInfoLineRequest (a : AddInfoArgs) : String :=
  serializeCommand "XML_ADDINFO_REQUEST" (additionalInfoLineParams a)

example :
    servingLinesParse
      [⟨some "a", some true, some "A", none, none, none, none, some 2, none⟩,
       ⟨some "b", some true, some "B", none, none, none, none, some 7, none⟩] =
      [⟨some "b", "B", "", [], "", []⟩, ⟨some "a", "A", "", [], "", []⟩] := by
  decide

example :
    resolveStopId ⟨some "top", some false, none, none, none, none, none, none,
      some [("stopId", "nested")]⟩ = some "nested" := by decide

example :
    resolveStopId ⟨some "top", some true, none, none, none, none, none, none,
      some [("stopId", "nested")]⟩ = some "top" := by decide

/-- C1: for every stop-finder (location search) response, the list returned by
`ServingLinesRequest.parse` is the descending-by-match-quality sort of the
per-item records: every pair of items (adjacent pairs included) has the
earlier item's match quality ≥ the later item's, and the returned `Stop` list
is exactly that sorted list projected item by item. -/
theorem servingLinesParse_sorted_desc_by_match_quality
    (locations : List RawLocation) :
    (sortStops (locations.map mkStopRec)).Pairwise
      (fun a b => b.match_quality ≤ a.match_quality) ∧
    servingLinesParse locations =
      (sortStops (locations.map mkStopRec)).map StopRec.toStop :=
  ⟨List.sorted_insertionSort mqDescRel _, rfl⟩

/-- C2: identifier resolution in `ServingLinesRequest.parse`: with
`isGlobalId = true` the resolved id is the top-level `id` field; with
`isGlobalId` false or absent and a non-empty `properties` dict carrying a
nested id, the resolved id is the nested field and not the (differing)
top-level one; and the resolution is applied independently to each item of
the parsed list. -/
theorem resolveStopId_global_vs_nested (loc : RawLocation)
    (locations : List RawLocation) :
    (loc.isGlobalId = some true →
      ∀ i : String, loc.id = some i → resolveStopId loc = some i) ∧
    (loc.isGlobalId.getD false = false →
      ∀ ps, loc.properties = some ps → ps ≠ [] →
        ∀ s, ps.lookup "stopId" = some s →
          resolveStopId loc = some s ∧
          ∀ top, loc.id = some top → top ≠ s →
            resolveStopId loc ≠ some top) ∧
    (locations.map mkStopRec).map StopRec.id = locations.map resolveStopId := by
  refine ⟨?_, ?_, ?_⟩
  · intro h i hi
    simp [resolveStopId, h, hi]
  · intro h ps hps hne s hs
    have hres : resolveStopId loc = some s := by
      simp [resolveStopId, h, hps, List.isEmpty_iff, hne, hs]
    refine ⟨hres, ?_⟩
    intro top _ htop hcontra
    rw [hres] at hcontra
    exact htop (Option.some_injective _ hcontra).symm
  · rw [List.map_map]
    rfl

theorem resolveStopId_global_vs_nested_witness :
    resolveStopId ⟨some "top", some false, none, none, none, none, none, none,
        some [("stopId", "nested")]⟩ = some "nested" ∧
    resolveStopId ⟨some "gid", some true, none, none, none, none, none, none,
        some [("stopId", "nested")]⟩ = some "gid" :=
  ⟨((resolveStopId_global_vs_nested
      ⟨some "top", some false, none, none, none, none, none, none,
        some [("stopId", "nested")]⟩ []).2.1 rfl
      [("stopId", "nested")] rfl (by decide) "nested" rfl).1,
   (resolveStopId_global_vs_nested
      ⟨some "gid", some true, none, none, none, none, none, none,
        some [("stopId", "nested")]⟩ []).1 rfl "gid" rfl⟩

theorem alistGet_map_replace {β : Type} (k : String) (v : β) :
    ∀ params : List (String × β),
      params.any (fun p => decide (p.1 = k)) = true →
      alistGet k (params.map (fun p => if p.1 = k then (k, v) else p)) =
        some v := by
  intro params h
  induction params with
  | nil => simp at h
  | cons p ps ih =>
    by_cases hp : p.1 = k
    · simp [alistGet, hp]
    · have h' : ps.any (fun p => decide (p.1 = k)) = true := by
        simpa [List.any_cons, hp] using h
      simp [alistGet, hp, ih h']

theorem alistGet_append_single {β : Type} (k : String) (v : β) :
    ∀ params : List (String × β),
      params.any (fun p => decide (p.1 = k)) = false →
      alistGet k (params ++ [(k, v)]) = some v := by
  intro params h
  induction params with
  | nil => simp [alistGet]
  | cons p ps ih =>
    have hp : ¬ p.1 = k := by
      intro hc
      simp [List.any_cons, hc] at h
    have h' : ps.any (fun p => decide (p.1 = k)) = false := by
      simpa [List.any_cons, hp] using h
    simp [alistGet, hp, ih h']

/-- A stored value is retrievable unchanged after a dict update. -/
theorem alistGet_dictSet {β : Type} (params : List (String × β)) (k : String)
    (v : β) : alistGet k (dictSet params k v) = some v := by
  unfold dictSet
  split
  · exact alistGet_map_replace k v params (by assumption)
  · rename_i h
    refine alistGet_append_single k v params ?_
    rw [← Bool.not_eq_true]
    exact h

/-- C4: `EfaClient._run_query` returns the body text unchanged on HTTP 200
and raises `EfaConnectionError` carrying the status code on any other status,
with a single GET and no retry (the one `HttpCall` per invocation). -/
theorem runQuery_status_classification (query : String)
    (response : HttpResponse) :
    (response.status = 200 → (runQuery query response).2 = .ok response.text) ∧
    (response.status ≠ 200 →
      (runQuery query response).2 = .error
        (.connectionError
          "Failed to fetch data from endpoint. Returned status: "
          response.status)) := by
  constructor
  · intro h
    simp [runQuery, h]
  · intro h
    simp [runQuery, h]

theorem runQuery_status_classification_witness :
    (runQuery "url" ⟨200, "body"⟩).2 = .ok "body" ∧
    (runQuery "url" ⟨400, "body"⟩).2 = .error
      (.connectionError
        "Failed to fetch data from endpoint. Returned status: " 400) :=
  ⟨(runQuery_status_classification "url" ⟨200, "body"⟩).1 rfl,
   (runQuery_status_classification "url" ⟨400, "body"⟩).2 (by decide)⟩

/-- C9 counterexample: the claim says that a client constructed without any
insecure-transport flag has certificate verification enabled on its transport
calls; but the GET issued for a client constructed with the plain defaults
passes `ssl=False` (client.py line 506). -/
theorem runQuery_ssl_disabled_counterexample :
    ¬ ((runQuery "https://example.com/XML_SYSTEMINFO_REQUEST?outputFormat=rapidJSON"
        ⟨200, ""⟩).1.ssl = true) := by
  decide

/-- C9 (amended): TLS certificate verification is unconditionally disabled:
every GET issued by `_run_query` carries the literal `ssl=False` (and the
fixed 30-second timeout), whatever the query and response, and the client
state (`ClientState`) holds no insecure-transport configuration field that
could influence it. -/
theorem runQuery_ssl_always_disabled (query : String)
    (response : HttpResponse) :
    (runQuery query response).1.ssl = false ∧
    (runQuery query response).1.timeoutSeconds = QUERY_TIMEOUT :=
  ⟨rfl, rfl⟩

/-- C7 counterexample: `EfaClient.additional_info_stop` is an acknowledged
stub, yet it returns a value (`None`) instead of failing with the
not-implemented signal. -/
theorem additionalInfoStop_returns_counterexample :
    clientAdditionalInfoStop = PyOutcome.returns () ∧
    clientAdditionalInfoStop ≠ PyOutcome.raises EfaError.notImplementedError :=
  ⟨rfl, by decide⟩

/-- C7 (amended): of the acknowledged stubs, `EfaClient.trip` and
`CommandTrip.parse` fail immediately and unconditionally with
`NotImplementedError`; `EfaClient.additional_info_stop` instead silently
returns `None` on every call, raising nothing. -/
theorem stubs_outcomes (d : String) :
    clientTrip = PyOutcome.raises EfaError.notImplementedError ∧
    commandTripParse d = PyOutcome.raises EfaError.notImplementedError ∧
    clientAdditionalInfoStop = PyOutcome.returns () :=
  ⟨rfl, rfl, rfl⟩

/-- C5: client construction with a missing or empty url raises `ValueError`,
and construction with a non-empty url but a format other than `"rapidJSON"`
raises `EfaFormatNotSupported`; in all cases construction performs zero
transport invocations. -/
theorem clientInit_validation (url : String) (debug : Bool)
    (format : String) :
    clientInit none debug format =
      ⟨.error (.valueError "No EFA endpoint url provided"), 0⟩ ∧
    clientInit (some "") debug format =
      ⟨.error (.valueError "No EFA endpoint url provided"), 0⟩ ∧
    (url ≠ "" → format ≠ "rapidJSON" →
      clientInit (some url) debug format =
        ⟨.error (.formatNotSupported
          ("Format " ++ format ++ " is not supported")), 0⟩) ∧
    (clientInit (some url) debug format).transportCalls = 0 := by
  refine ⟨rfl, rfl, ?_, ?_⟩
  · intro hu hf
    have : (url == "") = false := by
      simpa using hu
    simp [clientInit, pyTruthyStr, this, hf]
  · unfold clientInit
    split
    · rfl
    · split
      · rfl
      · rfl

theorem clientInit_validation_witness :
    clientInit (some "https://example.com") false "xml" =
      ⟨.error (.formatNotSupported "Format xml is not supported"), 0⟩ ∧
    clientInit none false "rapidJSON" =
      ⟨.error (.valueError "No EFA endpoint url provided"), 0⟩ :=
  ⟨(clientInit_validation "https://example.com" false "xml").2.2.1
      (by decide) (by decide),
   (clientInit_validation "" false "rapidJSON").1⟩

/-- C8: for every non-empty url accepted at construction, the stored base url
ends with `"/"`: a url already ending with `"/"` is stored unchanged, any
other url gets exactly one `"/"` appended; in particular
`"https://example.com"` normalizes to `"https://example.com/"`. -/
theorem clientInit_trailing_slash (url : String) (debug : Bool)
    (h : url ≠ "") :
    (clientInit (some url) debug "rapidJSON").outcome =
      .ok ⟨debug, "rapidJSON", normalizeBaseUrl url⟩ ∧
    pyEndsWithSlash (normalizeBaseUrl url) = true ∧
    (pyEndsWithSlash url = true → normalizeBaseUrl url = url) ∧
    (pyEndsWithSlash url = false → normalizeBaseUrl url = url ++ "/") ∧
    normalizeBaseUrl "https://example.com" = "https://example.com/" := by
  have hb : (url == "") = false := by
    simpa using h
  refine ⟨by simp [clientInit, pyTruthyStr, hb], ?_, ?_, ?_, by decide⟩
  · by_cases hp : pyEndsWithSlash url
    · simp [normalizeBaseUrl, hp]
    · simp only [normalizeBaseUrl, hp, if_false, Bool.false_eq_true]
      simp [pyEndsWithSlash, List.getLast?_concat]
  · intro hp
    simp [normalizeBaseUrl, hp]
  · intro hp
    simp [normalizeBaseUrl, hp]

theorem clientInit_trailing_slash_witness :
    (clientInit (some "https://example.com") true "rapidJSON").outcome =
      .ok ⟨true, "rapidJSON", "https://example.com/"⟩ ∧
    normalizeBaseUrl "https://example.com" = "https://example.com/" :=
  ⟨by
    have h := (clientInit_trailing_slash "https://example.com" true
      (by decide)).1
    simpa [normalizeBaseUrl] using h,
   (clientInit_trailing_slash "https://example.com" true (by decide)).2.2.2.2⟩

/-- C3: each façade limit (locations_by_name, location_by_coord,
departures_by_location) slices the parsed result to its first `k` items in
unchanged relative order when the parsed list has more than `k` items, the
sliced result has exactly `k` items, and parsing itself never truncates (the
parse in src/ returns one item per response item). -/
theorem facade_limit_truncation {α : Type} (parsed : List α) (k : Nat)
    (h : k < parsed.length) (locations : List RawLocation) :
    locationsByNameLimit parsed (k : Int) = parsed.take k ∧
    locationByCoordLimit parsed (k : Int) = parsed.take k ∧
    departuresByLocationLimit parsed (k : Int) = parsed.take k ∧
    (locationsByNameLimit parsed (k : Int)).length = k ∧
    (servingLinesParse locations).length = locations.length := by
  have hs : pySliceTo parsed (k : Int) = parsed.take k := by
    simp [pySliceTo]
  refine ⟨hs, hs, hs, ?_, ?_⟩
  · rw [locationsByNameLimit, hs, List.length_take]
    exact Nat.min_eq_left (Nat.le_of_lt h)
  · simp [servingLinesParse, sortStops]

/-- C6: against the serving-lines schema, `add_param` fails with a parameter
error naming the key for every undeclared key (whatever the value) and for
every declared key with an out-of-domain value (e.g. `lineReqType` above the
sum of all `LineRequestType` values); a declared-valid insertion succeeds
and the value is retrievable unchanged.  Validation is a pure function of
the schema, key and value: it happens at insertion, before any I/O. -/
theorem addParam_schema_validation (params : List (String × PyVal))
    (key : String) (v : PyVal) (dom : ParamDomain) (n : Int) :
    (alistGet key servingLinesParamsSchema = none →
      addParam servingLinesParamsSchema params key v =
        .error (.parameterError key)) ∧
    (alistGet key servingLinesParamsSchema = some dom →
      domainOk dom v = false →
      addParam servingLinesParamsSchema params key v =
        .error (.parameterError key)) ∧
    (lineReqTypeMax < n →
      addParam servingLinesParamsSchema params "lineReqType" (.i n) =
        .error (.parameterError "lineReqType")) ∧
    (alistGet key servingLinesParamsSchema = some dom →
      domainOk dom v = true →
      addParam servingLinesParamsSchema params key v =
        .ok (dictSet params key v) ∧
      alistGet key (dictSet params key v) = some v) := by
  refine ⟨?_, ?_, ?_, ?_⟩
  · intro h
    simp [addParam, h]
  · intro h hdom
    simp [addParam, h, hdom]
  · intro h
    have hget : alistGet "lineReqType" servingLinesParamsSchema =
        some (.intRange 0 lineReqTypeMax) := by
      simp [servingLinesParamsSchema, alistGet]
    have hdom : domainOk (.intRange 0 lineReqTypeMax) (.i n) = false := by
      simp [domainOk]
      intro _
      exact h
    simp [addParam, hget, hdom]
  · intro h hdom
    exact ⟨by simp [addParam, h, hdom], alistGet_dictSet params key v⟩

theorem addParam_schema_validation_witness :
    addParam servingLinesParamsSchema [] "dummy" (.s "any") =
      .error (.parameterError "dummy") ∧
    addParam servingLinesParamsSchema [] "lineReqType" (.i 1000) =
      .error (.parameterError "lineReqType") ∧
    (addParam servingLinesParamsSchema [] "mode" (.s "odv") =
      .ok [("mode", PyVal.s "odv")] ∧
     alistGet "mode" (dictSet [] "mode" (PyVal.s "odv")) =
      some (PyVal.s "odv")) :=
  ⟨(addParam_schema_validation [] "dummy" (.s "any") .anyStr 0).1 (by decide),
   (addParam_schema_validation [] "lineReqType" (.s "") .anyStr 1000).2.2.1
     (by decide),
   (addParam_schema_validation [] "mode" (.s "odv")
     (.strEnum ["odv", "line"]) 0).2.2.2 (by decide) (by decide)⟩

theorem facade_limit_truncation_witness :
    locationsByNameLimit ["a", "b", "c"] (2 : Int) = ["a", "b"] ∧
    departuresByLocationLimit ["a", "b", "c"] (2 : Int) = ["a", "b"] ∧
    (locationsByNameLimit ["a", "b", "c"] (2 : Int)).length = 2 :=
  ⟨(facade_limit_truncation ["a", "b", "c"] 2 (by decide) []).1,
   (facade_limit_truncation ["a", "b", "c"] 2 (by decide) []).2.2.1,
   (facade_limit_truncation ["a", "b", "c"] 2 (by decide) []).2.2.2.1⟩

/-- C10: two `additional_info_line` calls that agree on `incl_history`,
`only_valid` and `filter_date` build byte-identical requests whatever the
other fifteen arguments are, and the parameter set ever built contains
exactly `outputFormat`, `coordOutputFormat`, `filterPublished` (iff
`incl_history` is false), `filterValid` (iff `only_valid` is true) and
`filterDateValid` (iff a truthy `filter_date` is provided). -/
theorem additionalInfoLine_ignores_other_args (a b : AddInfoArgs)
    (h1 : a.incl_history = b.incl_history)
    (h2 : a.only_valid = b.only_valid)
    (h3 : a.filter_date = b.filter_date) :
    additionalInfoLineParams a = additionalInfoLineParams b ∧
    additionalInfoLineRequest a = additionalInfoLineRequest b ∧
    additionalInfoLineParams a =
      [("outputFormat", PyVal.s "rapidJSON"),
       ("coordOutputFormat", PyVal.s "WGS84[dd.ddddd]")] ++
      (if a.incl_history then [] else [("filterPublished", PyVal.s "1")]) ++
      (if a.only_valid then [("filterValid", PyVal.s "1")] else []) ++
      (match a.filter_date with
       | none => []
       | some d => if d = "" then [] else [("filterDateValid", PyVal.s d)]) := by
  have hp : additionalInfoLineParams a = additionalInfoLineParams b := by
    unfold additionalInfoLineParams
    rw [h1, h2, h3]
  refine ⟨hp, ?_, ?_⟩
  · unfold additionalInfoLineRequest
    rw [hp]
  · unfold additionalInfoLineParams
    cases hfd : a.filter_date with
    | none =>
      cases hih : a.incl_history <;> cases hov : a.only_valid <;>
        simp [dictSet]
    | some d =>
      by_cases hd : d = "" <;>
        cases hih : a.incl_history <;> cases hov : a.only_valid <;>
          simp [dictSet, hd]

theorem additionalInfoLine_ignores_other_args_witness :
    additionalInfoLineRequest
      ⟨false, true, some "2024-01-01", [1], [1], ["bus"], ["op"], ["L1"],
       ["net"], ["p1"], ["d1"], some "L1", 3, ["s1"], some "i1", true, true,
       true⟩ =
    additionalInfoLineRequest
      ⟨false, true, some "2024-01-01", [], [], [], [], [], [], [], [], none,
       0, [], none, false, false, false⟩ :=
  (additionalInfoLine_ignores_other_args _ _ rfl rfl rfl).2.1
